import Mathlib

/-!
Formal model of the Employee Management domain layer
(Go sources: internal/domain/employee.go, user.go, user_service.go,
events.go, and the AuditLog / Address files of package domain).

Conventions of the shallow embedding:
* Go `uuid.UUID` is modelled as `Nat`; the nil UUID is `0`, and `uuid.New()`
  is modelled by an explicit fresh-identifier parameter (always nonzero,
  since a random V4 UUID is never the nil UUID).
* Go `time.Time` is modelled as `Int` on a linear time scale; the zero time
  is `0`, and `time.Now()` is an explicit `now : Int` parameter.
* Go `float64` salaries are modelled as `Rat`; the validators only compare,
  so the order embedding is exact (NaN inputs are outside the model).
* Go `error` results become `Except String α` (the string is the message),
  and functions that print warnings and swallow errors return the list of
  warnings alongside the primary result.
* Go string length `len(s)` is byte length, modelled by `String.utf8ByteSize`.
* The Unicode classes used by `unicode.IsLetter` / `IsSpace` are modelled by
  their ASCII restrictions; no claim depends on the exact character class,
  only on the same class being used at every call site, as in the source.
-/

/-- Byte length of a string, matching Go's len(s) on UTF-8 strings. -/
def goLen (s : String) : Nat := s.utf8ByteSize

/-- Models unicode.IsLetter (restricted to ASCII letters). -/
def goIsLetter (c : Char) : Bool := c.isAlpha

/-- Models unicode.IsSpace (restricted to ASCII whitespace). -/
def goIsSpace (c : Char) : Bool := c = ' ' || c = '\t' || c = '\n' || c = '\r'

/-- ASCII digit, matching the regexp class [0-9] (Go's non-Unicode \d). -/
def goIsDigit (c : Char) : Bool := c.isDigit

/-- The apostrophe character, written via its code point. -/
def apostropheChar : Char := Char.ofNat 39

/-- validateName from employee.go: required, 2..50 bytes, and only
letters, spaces, hyphens and apostrophes. -/
def validateName (name fieldName : String) : Except String Unit :=
  if name = "" then .error (fieldName ++ " is required")
  else if goLen name < 2 then .error (fieldName ++ " must be at least 2 characters long")
  else if goLen name > 50 then .error (fieldName ++ " cannot exceed 50 characters")
  else if name.toList.all (fun c => goIsLetter c || goIsSpace c || c = '-' || c = apostropheChar)
    then .ok ()
  else .error (fieldName ++ " contains invalid characters")

/-- Character class of the local part of the email regex. -/
def isEmailLocalChar (c : Char) : Bool :=
  c.isAlphanum || c = '.' || c = '_' || c = '%' || c = '+' || c = '-'

/-- Character class of the domain part of the email regex. -/
def isEmailDomainChar (c : Char) : Bool :=
  c.isAlphanum || c = '.' || c = '-'

/-- Splitting a character list at every occurrence of a separator
(the char-list counterpart of strings.Split with a one-character
separator); always returns at least one group. -/
def splitOnChar (sep : Char) : List Char → List (List Char)
  | [] => [[]]
  | c :: rest =>
    match splitOnChar sep rest with
    | [] => [[]]
    | g :: gs => if c = sep then [] :: g :: gs else (c :: g) :: gs

/-- Recognizer for the email regex of employee.go:
local part over [a-zA-Z0-9._%+-], an at sign, then [a-zA-Z0-9.-]+,
a literal dot and a final run of at least two ASCII letters.  The final
letter run contains no dot, so splitting the domain at its last dot is an
exact recognizer for the regex language. -/
def emailRegexMatch (s : String) : Bool :=
  match splitOnChar '@' s.toList with
  | [lp, dom] =>
    let parts := splitOnChar '.' dom
    !lp.isEmpty && lp.all isEmailLocalChar &&
    parts.length ≥ 2 &&
    (match parts.getLast? with
     | some tld =>
        tld.length ≥ 2 && tld.all Char.isAlpha &&
        (let front := (parts.dropLast.intersperse ['.']).flatten
         !front.isEmpty && front.all isEmailDomainChar)
     | none => false)
  | _ => false

/-- validateEmail from employee.go. -/
def validateEmail (email : String) : Except String Unit :=
  if email = "" then .error "email is required"
  else if goLen email > 100 then .error "email cannot exceed 100 characters"
  else if emailRegexMatch email then .ok ()
  else .error "email format is invalid"

/-- Character class of the phone regex: digits, whitespace, hyphen, plus,
parentheses. -/
def isPhoneChar (c : Char) : Bool :=
  goIsDigit c || goIsSpace c || c = '-' || c = '+' || c = '(' || c = ')'

/-- validatePhone from employee.go: at most 20 bytes and a nonempty string
over the phone character class. -/
def validatePhone (phone : String) : Except String Unit :=
  if goLen phone > 20 then .error "phone cannot exceed 20 characters"
  else if phone ≠ "" && phone.toList.all isPhoneChar then .ok ()
  else .error "phone format is invalid"

/-- validateDepartment from employee.go. -/
def validateDepartment (department : String) : Except String Unit :=
  if department = "" then .error "department is required"
  else if goLen department < 2 then .error "department must be at least 2 characters long"
  else if goLen department > 50 then .error "department cannot exceed 50 characters"
  else if department.toList.all (fun c => goIsLetter c || goIsSpace c || c = '&')
    then .ok ()
  else .error "department contains invalid characters"

/-- validatePosition from employee.go. -/
def validatePosition (position : String) : Except String Unit :=
  if position = "" then .error "position is required"
  else if goLen position < 2 then .error "position must be at least 2 characters long"
  else if goLen position > 50 then .error "position cannot exceed 50 characters"
  else if position.toList.all (fun c => goIsLetter c || goIsSpace c || c = '-' || c = '/')
    then .ok ()
  else .error "position contains invalid characters"

/-- Models time.Now().AddDate(-50, 0, 0) on the linear time scale:
fifty years (here 50 * 365 days, in seconds) before now.  No claim
depends on the exact length of the interval. -/
def fiftyYearsBefore (now : Int) : Int := now - 1576800000

/-- validateHireDate from employee.go, with time.Now() passed explicitly. -/
def validateHireDate (now hireDate : Int) : Except String Unit :=
  if hireDate = 0 then .error "hire date is required"
  else if hireDate > now then .error "hire date cannot be in the future"
  else if hireDate < fiftyYearsBefore now then
    .error "hire date cannot be more than 50 years in the past"
  else .ok ()

/-- validateSalary from employee.go: negative, zero and above 1,000,000
are rejected, in that order of checks. -/
def validateSalary (salary : Rat) : Except String Unit :=
  if salary < 0 then .error "salary cannot be negative"
  else if salary = 0 then .error "salary is required"
  else if salary > 1000000 then .error "salary cannot exceed 1,000,000 dollars"
  else .ok ()

/-! ## Address value object -/

structure Address where
  street : String
  city : String
  state : String
  postalCode : String
  country : String
deriving Repr, DecidableEq

/-- US ZIP recognizer: five digits, optionally a hyphen and four digits. -/
def isUsZip (s : String) : Bool :=
  let cs := s.toList
  (cs.length = 5 && cs.all goIsDigit) ||
  (cs.length = 10 && (cs.take 5).all goIsDigit &&
    ((cs.drop 5).headD ' ') = '-' && (cs.drop 6).all goIsDigit)

/-- Canadian postal code recognizer: letter digit letter, optional space,
digit letter digit (uppercase letters, per the regex in the source). -/
def isCaPostal (s : String) : Bool :=
  match s.toList with
  | [a, b, c, d, e, f] =>
    a.isUpper && goIsDigit b && c.isUpper && goIsDigit d && e.isUpper && goIsDigit f
  | [a, b, c, sp, d, e, f] =>
    a.isUpper && goIsDigit b && c.isUpper && sp = ' ' &&
    goIsDigit d && e.isUpper && goIsDigit f
  | _ => false

/-- Generic postal code recognizer: 3 to 10 uppercase alphanumerics. -/
def isGeneralPostal (s : String) : Bool :=
  let cs := s.toList
  3 ≤ cs.length && cs.length ≤ 10 && cs.all (fun c => c.isUpper || goIsDigit c)

/-- validatePostalCode from the address file: US ZIP, Canadian postal code,
or the generic pattern applied to the upper-cased, space-stripped input. -/
def validatePostalCode (postalCode : String) : Except String Unit :=
  let normalized := (postalCode.replace " " "").toUpper
  if isUsZip postalCode || isCaPostal postalCode || isGeneralPostal normalized
    then .ok ()
  else .error "postal code format is invalid"

/-- Address.Validate from the source (for a non-nil address): either all
fields empty, or all present with the individual format checks. -/
def addressValidate (a : Address) : Except String Unit :=
  if a.street ≠ "" || a.city ≠ "" || a.state ≠ "" || a.postalCode ≠ "" || a.country ≠ "" then
    if a.street = "" then .error "street is required when other address fields are provided"
    else if a.city = "" then .error "city is required when other address fields are provided"
    else if a.state = "" then .error "state is required when other address fields are provided"
    else if a.postalCode = "" then .error "postal code is required when other address fields are provided"
    else if a.country = "" then .error "country is required when other address fields are provided"
    else addressFormatChecks a
  else addressFormatChecks a
where
  /-- The format checks that follow the all-or-nothing check in the source. -/
  addressFormatChecks (a : Address) : Except String Unit :=
    if a.street ≠ "" && goLen a.street < 5 then
      .error "street must be at least 5 characters long"
    else if goLen a.street > 200 then .error "street cannot exceed 200 characters"
    else if a.city ≠ "" && goLen a.city < 2 then
      .error "city must be at least 2 characters long"
    else if goLen a.city > 100 then .error "city cannot exceed 100 characters"
    else if a.state ≠ "" && goLen a.state < 2 then
      .error "state must be at least 2 characters long"
    else if goLen a.state > 50 then .error "state cannot exceed 50 characters"
    else if a.postalCode ≠ "" then
      match validatePostalCode a.postalCode with
      | .error m => .error ("invalid postal code: " ++ m)
      | .ok _ =>
        if a.country ≠ "" && goLen a.country < 2 then
          .error "country must be at least 2 characters long"
        else if goLen a.country > 100 then .error "country cannot exceed 100 characters"
        else .ok ()
    else
      if a.country ≠ "" && goLen a.country < 2 then
        .error "country must be at least 2 characters long"
      else if goLen a.country > 100 then .error "country cannot exceed 100 characters"
      else .ok ()

/-- NewAddress from the source: trim all fields, then validate. -/
def newAddress (street city state postalCode country : String) : Except String Address :=
  let a : Address :=
    { street := street.trim, city := city.trim, state := state.trim,
      postalCode := postalCode.trim, country := country.trim }
  match addressValidate a with
  | .error m => .error m
  | .ok _ => .ok a

/-! ## EmployeeStatus (a Go string type) -/

/-- EmployeeStatus is a string type in the source; statuses are strings. -/
abbrev EmployeeStatus := String

def EmployeeStatusActive : EmployeeStatus := "ACTIVE"
def EmployeeStatusTerminated : EmployeeStatus := "TERMINATED"
def EmployeeStatusOnLeave : EmployeeStatus := "ON_LEAVE"

/-- EmployeeStatus.IsValid from the source. -/
def statusIsValid (s : EmployeeStatus) : Bool :=
  s = EmployeeStatusActive || s = EmployeeStatusTerminated || s = EmployeeStatusOnLeave

/-- EmployeeStatus.CanChangeTo: TERMINATED is terminal; otherwise any valid
target is allowed. -/
def canChangeTo (s target : EmployeeStatus) : Bool :=
  if s = EmployeeStatusTerminated then false else statusIsValid target

/-- EmployeeStatus.ValidateTransition. -/
def validateTransition (s target : EmployeeStatus) : Except String Unit :=
  if canChangeTo s target then .ok ()
  else .error ("invalid status transition from " ++ s ++ " to " ++ target)

/-! ## Employee aggregate -/

/-- Go uuid.UUID, modelled as Nat with 0 the nil UUID. -/
abbrev UUID := Nat

structure Employee where
  id : UUID
  firstName : String
  lastName : String
  email : String
  phone : String
  department : String
  position : String
  hireDate : Int
  salary : Rat
  status : EmployeeStatus
  managerId : Option UUID
  address : Option Address
  createdAt : Int
  updatedAt : Int
deriving Repr, DecidableEq

/-- Employee.Validate from the source, with time.Now() passed explicitly
(the hire-date validator consults the clock).  The nil-receiver check is
outside the model. -/
def employeeValidate (now : Int) (e : Employee) : Except String Unit :=
  if e.id = 0 then .error "employee ID cannot be empty"
  else match validateName e.firstName "first name" with
  | .error m => .error m
  | .ok _ => match validateName e.lastName "last name" with
    | .error m => .error m
    | .ok _ => match validateEmail e.email with
      | .error m => .error m
      | .ok _ =>
        match (if e.phone ≠ "" then validatePhone e.phone else .ok ()) with
        | .error m => .error m
        | .ok _ => match validateDepartment e.department with
          | .error m => .error m
          | .ok _ => match validatePosition e.position with
            | .error m => .error m
            | .ok _ => match validateHireDate now e.hireDate with
              | .error m => .error m
              | .ok _ => match validateSalary e.salary with
                | .error m => .error m
                | .ok _ =>
                  if !statusIsValid e.status then
                    .error ("invalid employee status: " ++ e.status)
                  else match e.address with
                  | none => .ok ()
                  | some a => match addressValidate a with
                    | .error m => .error ("invalid address: " ++ m)
                    | .ok _ => .ok ()

/-- NewEmployee from the source: build the record (status forced to ACTIVE,
timestamps set to now, a fresh nonzero id standing for uuid.New()) and
validate it. -/
def newEmployee (freshId : UUID) (now : Int)
    (firstName lastName email phone department position : String)
    (hireDate : Int) (salary : Rat) (managerId : Option UUID)
    (address : Option Address) : Except String Employee :=
  let e : Employee :=
    { id := freshId, firstName := firstName, lastName := lastName,
      email := email, phone := phone, department := department,
      position := position, hireDate := hireDate, salary := salary,
      status := EmployeeStatusActive, managerId := managerId,
      address := address, createdAt := now, updatedAt := now }
  match employeeValidate now e with
  | .error m => .error m
  | .ok _ => .ok e

/-- Employee.IsTerminated. -/
def Employee.isTerminated (e : Employee) : Bool :=
  e.status = EmployeeStatusTerminated

/-- Employee.ChangeStatus: validate the transition, then set the status and
bump UpdatedAt. -/
def Employee.changeStatus (e : Employee) (newStatus : EmployeeStatus) (now : Int) :
    Except String Employee :=
  match validateTransition e.status newStatus with
  | .error m => .error m
  | .ok _ => .ok { e with status := newStatus, updatedAt := now }

/-- Employee.UpdateSalary: validate the new salary first, then reject
terminated employees, then update. -/
def Employee.updateSalary (e : Employee) (newSalary : Rat) (now : Int) :
    Except String Employee :=
  match validateSalary newSalary with
  | .error m => .error m
  | .ok _ =>
    if e.isTerminated then .error "cannot update salary for terminated employees"
    else .ok { e with salary := newSalary, updatedAt := now }

/-- Employee.UpdateContactInfo: validate email, validate phone when nonempty,
then update both fields. -/
def Employee.updateContactInfo (e : Employee) (email phone : String) (now : Int) :
    Except String Employee :=
  match validateEmail email with
  | .error m => .error m
  | .ok _ =>
    match (if phone ≠ "" then validatePhone phone else .ok ()) with
    | .error m => .error m
    | .ok _ => .ok { e with email := email, phone := phone, updatedAt := now }

/-- Employee.UpdatePosition: validate both fields, reject terminated
employees, then update. -/
def Employee.updatePosition (e : Employee) (position department : String) (now : Int) :
    Except String Employee :=
  match validatePosition position with
  | .error m => .error m
  | .ok _ => match validateDepartment department with
    | .error m => .error m
    | .ok _ =>
      if e.isTerminated then .error "cannot update position for terminated employees"
      else .ok { e with position := position, department := department, updatedAt := now }

/-- Employee.UpdateAddress: validate a non-nil address, then update. -/
def Employee.updateAddress (e : Employee) (address : Option Address) (now : Int) :
    Except String Employee :=
  match address with
  | some a =>
    (match addressValidate a with
     | .error m => .error ("invalid address: " ++ m)
     | .ok _ => .ok { e with address := address, updatedAt := now })
  | none => .ok { e with address := address, updatedAt := now }

/-- Employee.SetManager: only the local self-management check. -/
def Employee.setManager (e : Employee) (managerId : Option UUID) (now : Int) :
    Except String Employee :=
  if managerId = some e.id then .error "employee cannot be their own manager"
  else .ok { e with managerId := managerId, updatedAt := now }

/-! ## Snapshot values (Go map[string]interface] payloads)

Snapshot maps hold heterogeneous Go values.  The dynamic types appearing in
this codebase's snapshots are modelled by one flat inductive; the nested
address map is modelled by its five string fields. -/

inductive GoValue where
  | vNull
  | vStr (s : String)
  | vNum (q : Rat)
  | vBool (b : Bool)
  | vId (u : UUID)
  | vTime (t : Int)
  | vAddr (a : Address)
deriving Repr, DecidableEq

/-- Rendering of a value as Go's fmt %v verb would print it (the exact text
is irrelevant to every claim; only equality of renderings matters). -/
def goRender : GoValue → String
  | .vNull => "<nil>"
  | .vStr s => s
  | .vNum q => toString q
  | .vBool b => if b then "true" else "false"
  | .vId u => toString u
  | .vTime t => toString t
  | .vAddr a =>
      "map[city:" ++ a.city ++ " country:" ++ a.country ++ " postalCode:" ++
      a.postalCode ++ " state:" ++ a.state ++ " street:" ++ a.street ++ "]"

/-- valuesEqual from the audit-log file: Go interface equality first, then
the string/string case, then the %v-rendering fallback for two non-nil
values, and false otherwise. -/
def valuesEqual (a b : GoValue) : Bool :=
  if a = b then true
  else match a, b with
    | .vStr x, .vStr y => x = y
    | _, _ =>
      if a ≠ .vNull && b ≠ .vNull then goRender a = goRender b
      else false

/-- A Go map[string]interface] snapshot, modelled as an association list
(a Go map has no duplicate keys; theorems that need that fact take it as a
hypothesis). -/
abbrev Snapshot := List (String × GoValue)

/-- Go map indexing m[k]: the value at the first matching key. -/
def lookupVal : Snapshot → String → Option GoValue
  | [], _ => none
  | p :: rest, k => if p.1 = k then some p.2 else lookupVal rest k

/-- The keys of a snapshot are pairwise distinct (intrinsic to a Go map). -/
def keysNodup (m : Snapshot) : Prop := (m.map Prod.fst).Nodup

/-! ## AuditLog -/

structure AuditLog where
  id : UUID
  employeeId : UUID
  operation : String
  userId : String
  timestamp : Int
  oldValues : Snapshot
  newValues : Snapshot
  ipAddress : String
  userAgent : String
deriving Repr, DecidableEq

/-- isValidOperationFormat: letters, digits, underscore, colon. -/
def isValidOperationFormat (operation : String) : Bool :=
  operation.toList.all (fun c =>
    (c ≥ 'a' && c ≤ 'z') || (c ≥ 'A' && c ≤ 'Z') || (c ≥ '0' && c ≤ '9') ||
    c = '_' || c = ':')

/-- validateOperation from the audit-log file. -/
def validateOperation (operation : String) : Except String Unit :=
  if operation = "" then .error "operation cannot be empty"
  else if goLen operation > 50 then .error "operation cannot exceed 50 characters"
  else if isValidOperationFormat operation then .ok ()
  else .error "operation contains invalid characters"

/-- validateIPAddress from the audit-log file: nonempty, between 7 and 45
bytes. -/
def validateIPAddress (ip : String) : Except String Unit :=
  if ip = "" then .error "IP address cannot be empty"
  else if goLen ip > 45 then .error "IP address is too long"
  else if goLen ip < 7 then .error "IP address is too short"
  else .ok ()

/-- AuditLog.Validate from the source, check for check in source order.
Go's len on the two maps is the entry count, here the list length. -/
def auditValidate (a : AuditLog) : Except String Unit :=
  if a.id = 0 then .error "audit log ID cannot be empty"
  else if a.employeeId = 0 then .error "employee ID cannot be empty"
  else match validateOperation a.operation with
  | .error m => .error m
  | .ok _ =>
    if a.userId = "" then .error "user ID cannot be empty"
    else if a.timestamp = 0 then .error "timestamp cannot be empty"
    else if a.ipAddress = "" then .error "IP address cannot be empty"
    else match validateIPAddress a.ipAddress with
    | .error m => .error ("invalid IP address: " ++ m)
    | .ok _ =>
      if a.oldValues.length = 0 && a.newValues.length = 0 then
        .error "at least one of old values or new values must be provided"
      else .ok ()

/-- NewAuditLog from the source: build the record (fresh id for uuid.New(),
now for time.Now()) and validate it. -/
def newAuditLog (freshId : UUID) (now : Int) (employeeId : UUID)
    (operation userId : String) (oldValues newValues : Snapshot)
    (ipAddress userAgent : String) : Except String AuditLog :=
  let a : AuditLog :=
    { id := freshId, employeeId := employeeId, operation := operation,
      userId := userId, timestamp := now, oldValues := oldValues,
      newValues := newValues, ipAddress := ipAddress, userAgent := userAgent }
  match auditValidate a with
  | .error m => .error m
  | .ok _ => .ok a

/-- AuditLog.IsCreation: no old values and at least one new value. -/
def AuditLog.isCreation (a : AuditLog) : Bool :=
  a.oldValues.length = 0 && a.newValues.length > 0

/-- AuditLog.IsDeletion: no new values and at least one old value. -/
def AuditLog.isDeletion (a : AuditLog) : Bool :=
  a.newValues.length = 0 && a.oldValues.length > 0

/-- AuditLog.IsUpdate: old and new values both present. -/
def AuditLog.isUpdate (a : AuditLog) : Bool :=
  a.oldValues.length > 0 && a.newValues.length > 0

/-- AuditLog.GetChangedFields: keys of OldValues that also appear in
NewValues with a value that differs under valuesEqual, followed by keys of
NewValues absent from OldValues. -/
def AuditLog.getChangedFields (a : AuditLog) : List String :=
  (a.oldValues.filterMap (fun p =>
    match lookupVal a.newValues p.1 with
    | some nv => if valuesEqual p.2 nv then none else some p.1
    | none => none)) ++
  (a.newValues.filterMap (fun p =>
    match lookupVal a.oldValues p.1 with
    | some _ => none
    | none => some p.1))

/-- Operation constant employee:change_status. -/
def OperationChangeStatus : String := "employee:change_status"

/-- Operation constant employee:create. -/
def OperationCreateEmployee : String := "employee:create"

/-- Operation constant employee:update. -/
def OperationUpdateEmployee : String := "employee:update"

/-- Operation constant employee:update_salary. -/
def OperationUpdateSalary : String := "employee:update_salary"

/-! ## Domain events used by the claims -/

/-- EmployeeStatusChangedEvent: the base-event envelope fields plus the
strongly-typed OldStatus / NewStatus / ChangedBy fields, as in events.go. -/
structure StatusChangedEvent where
  id : UUID
  aggregateId : UUID
  eventType : String
  timestamp : Int
  version : Nat
  data : Snapshot
  employeeId : UUID
  oldStatus : EmployeeStatus
  newStatus : EmployeeStatus
  changedBy : String
deriving Repr, DecidableEq

/-- NewEmployeeStatusChangedEvent from events.go. -/
def newEmployeeStatusChangedEvent (freshEventId : UUID) (now : Int)
    (employeeId : UUID) (oldStatus newStatus : EmployeeStatus)
    (changedBy : String) : StatusChangedEvent :=
  { id := freshEventId, aggregateId := employeeId,
    eventType := "employee.status_changed", timestamp := now, version := 1,
    data := [("employeeId", .vId employeeId), ("oldStatus", .vStr oldStatus),
             ("newStatus", .vStr newStatus), ("changedBy", .vStr changedBy)],
    employeeId := employeeId, oldStatus := oldStatus, newStatus := newStatus,
    changedBy := changedBy }

/-- EmployeeSalaryChangedEvent: envelope plus typed fields, as in events.go. -/
structure SalaryChangedEvent where
  id : UUID
  aggregateId : UUID
  eventType : String
  timestamp : Int
  version : Nat
  data : Snapshot
  employeeId : UUID
  oldSalary : Rat
  newSalary : Rat
  changeType : String
  changedBy : String
deriving Repr, DecidableEq

/-- NewEmployeeSalaryChangedEvent from events.go: classifies the change and
stores changeAmount and changePercent = ((new - old) / old) * 100 in the
payload, with no guard on the divisor. -/
def newEmployeeSalaryChangedEvent (freshEventId : UUID) (now : Int)
    (employeeId : UUID) (oldSalary newSalary : Rat) (changedBy : String) :
    SalaryChangedEvent :=
  let changeType :=
    if newSalary > oldSalary then "increase"
    else if newSalary < oldSalary then "decrease"
    else "same"
  { id := freshEventId, aggregateId := employeeId,
    eventType := "employee.salary_changed", timestamp := now, version := 1,
    data := [("employeeId", .vId employeeId), ("oldSalary", .vNum oldSalary),
             ("newSalary", .vNum newSalary), ("changeType", .vStr changeType),
             ("changeAmount", .vNum (newSalary - oldSalary)),
             ("changePercent", .vNum (((newSalary - oldSalary) / oldSalary) * 100)),
             ("changedBy", .vStr changedBy)],
    employeeId := employeeId, oldSalary := oldSalary, newSalary := newSalary,
    changeType := changeType, changedBy := changedBy }

/-! ## EventDispatcher -/

/-- A dispatched event, reduced to what Dispatch consults: its type. -/
structure DEvent where
  eventType : String
deriving Repr, DecidableEq

/-- An EventHandler: CanHandle plus Handle, whose Go error result is
modelled as Option String (some message = error, none = nil). -/
structure EventHandler where
  canHandle : String → Bool
  handle : DEvent → Option String

/-- The dispatcher's handler map (event type to per-type handler list),
modelled as an association list with distinct keys. -/
abbrev Dispatcher := List (String × List EventHandler)

/-- Go map lookup with its ok flag: none models (nil, false). -/
def lookupHandlers : Dispatcher → String → Option (List EventHandler)
  | [], _ => none
  | p :: rest, k => if p.1 = k then some p.2 else lookupHandlers rest k

/-- EventDispatcher.Dispatch from events.go: no handlers for the type means
nil; otherwise run every handler whose CanHandle accepts the type, collect
all errors without stopping, and aggregate them (some errs models the
single combined error, none models nil). -/
def dispatch (d : Dispatcher) (e : DEvent) : Option (List String) :=
  match lookupHandlers d e.eventType with
  | none => none
  | some hs =>
    let errs := hs.foldl (fun acc h =>
      if h.canHandle e.eventType then
        match h.handle e with
        | some err => acc ++ ["handler failed for event " ++ e.eventType ++ ": " ++ err]
        | none => acc
      else acc) []
    if errs.isEmpty then none else some errs

/-! ## User aggregate and authentication -/

structure User where
  id : UUID
  username : String
  email : String
  passwordHash : String
  role : String
  isActive : Bool
  lastLogin : Option Int
  createdAt : Int
  updatedAt : Int
deriving Repr, DecidableEq

/-- User.Authenticate from user.go: false for an inactive account, else the
bcrypt comparison, passed in as an explicit function (the hash comparison
is an external collaborator of the model). -/
def userAuthenticate (check : String → String → Bool) (u : User)
    (password : String) : Bool :=
  if !u.isActive then false else check password u.passwordHash

/-- User.UpdateLastLogin. -/
def updateLastLogin (u : User) (now : Int) : User :=
  { u with lastLogin := some now, updatedAt := now }

/-- The error kinds AuthenticateUser can surface: a wrapped repository
error, the unified invalid-credentials error, or the user-not-active
error. -/
inductive AuthError where
  | wrapped (m : String)
  | invalidCredentials
  | userNotActive
deriving Repr, DecidableEq

/-- UserService.AuthenticateUser from user_service.go: look up by username
(result passed in as the repository's outcome), InvalidCredentials when
absent, UserNotActive when inactive, InvalidCredentials when the password
comparison fails, else update last login and succeed (the last-login
persistence failure and event failures are warned and swallowed, and do
not affect the result). -/
def authenticateUser (check : String → String → Bool)
    (findByUsername : Except String (Option User)) (password : String)
    (now : Int) : Except AuthError User :=
  match findByUsername with
  | .error m => .error (.wrapped ("failed to find user: " ++ m))
  | .ok none => .error .invalidCredentials
  | .ok (some u) =>
    if !u.isActive then .error .userNotActive
    else if !(userAuthenticate check u password) then .error .invalidCredentials
    else .ok (updateLastLogin u now)

/-! ## EmployeeService orchestration

Each service method runs against injected collaborators (repositories,
event store, dispatcher).  The outcome each collaborator call would
produce on this invocation is passed in as an explicit environment, and
the Warning lines the Go code prints for swallowed failures are collected
and returned beside the primary result. -/

/-- createEmployeeSnapshot from employee.go (insertion order of the Go map
literal; managerId and address entries only when present). -/
def createEmployeeSnapshot (e : Employee) : Snapshot :=
  [("id", .vId e.id), ("firstName", .vStr e.firstName),
   ("lastName", .vStr e.lastName), ("email", .vStr e.email),
   ("phone", .vStr e.phone), ("department", .vStr e.department),
   ("position", .vStr e.position), ("hireDate", .vTime e.hireDate),
   ("salary", .vNum e.salary), ("status", .vStr e.status),
   ("updatedAt", .vTime e.updatedAt)] ++
  (match e.managerId with
   | some m => [("managerId", .vId m)]
   | none => []) ++
  (match e.address with
   | some a => [("address", .vAddr a)]
   | none => [])

/-- createAuditLogForCreation: old values nil, new values the snapshot; a
validation failure is swallowed and yields no audit log (none). -/
def createAuditLogForCreation (e : Employee) (userId ipAddress userAgent : String)
    (freshAuditId : UUID) (now : Int) : Option AuditLog :=
  match newAuditLog freshAuditId now e.id OperationCreateEmployee userId
      [] (createEmployeeSnapshot e) ipAddress userAgent with
  | .ok a => some a
  | .error _ => none

/-- createAuditLogForStatusChange from employee.go: old values are built
from the status field of the employee value it receives, new values from
the target status. -/
def createAuditLogForStatusChange (e : Employee) (newStatus : EmployeeStatus)
    (userId ipAddress userAgent : String) (freshAuditId : UUID) (now : Int) :
    Option AuditLog :=
  match newAuditLog freshAuditId now e.id OperationChangeStatus userId
      [("status", .vStr e.status)] [("status", .vStr newStatus)]
      ipAddress userAgent with
  | .ok a => some a
  | .error _ => none

/-- createAuditLogForSalaryChange from employee.go. -/
def createAuditLogForSalaryChange (e : Employee) (oldSalary newSalary : Rat)
    (userId ipAddress userAgent : String) (freshAuditId : UUID) (now : Int) :
    Option AuditLog :=
  match newAuditLog freshAuditId now e.id OperationUpdateSalary userId
      [("salary", .vNum oldSalary)] [("salary", .vNum newSalary)]
      ipAddress userAgent with
  | .ok a => some a
  | .error _ => none

/-- The per-invocation outcomes of the collaborators CreateEmployee talks
to.  Except String Bool models an existence query (error or bool); an
Option String models a write (some message = failure). -/
structure CreateEnv where
  emailExists : Except String Bool
  managerExists : Except String Bool
  repoCreate : Option String
  auditCreate : Option String
  eventSave : Option String
  dispatchFailure : Option String
  auditEventSave : Option String

/-- What a service call produces: the caller-visible result and the
Warning lines printed for swallowed advisory failures. -/
structure CreateOutcome where
  result : Except String Employee
  warnings : List String
deriving Repr

/-- The Warning line printed when an advisory write fails. -/
def warnOf (what : String) (failure : Option String) : List String :=
  match failure with
  | some m => ["Warning: failed to " ++ what ++ ": " ++ m]
  | none => []

/-- EmployeeService.CreateEmployee from employee.go: uniqueness and manager
checks, aggregate construction, repository create (each fatal), then the
audit-log write, event-store writes and dispatch, whose failures are
warned about and swallowed. -/
def createEmployee (env : CreateEnv) (freshId freshAuditId : UUID) (now : Int)
    (firstName lastName email phone department position : String)
    (hireDate : Int) (salary : Rat) (managerId : Option UUID)
    (address : Option Address) (userId ipAddress userAgent : String) :
    CreateOutcome :=
  match env.emailExists with
  | .error m => { result := .error ("failed to check email uniqueness: " ++ m), warnings := [] }
  | .ok true => { result := .error "email already exists", warnings := [] }
  | .ok false =>
    let managerCheck : Except String Unit :=
      match managerId with
      | none => .ok ()
      | some _ =>
        match env.managerExists with
        | .error m => .error ("failed to check manager existence: " ++ m)
        | .ok true => .ok ()
        | .ok false => .error "manager not found"
    match managerCheck with
    | .error m => { result := .error m, warnings := [] }
    | .ok _ =>
      match newEmployee freshId now firstName lastName email phone department
          position hireDate salary managerId address with
      | .error m => { result := .error ("failed to create employee: " ++ m), warnings := [] }
      | .ok emp =>
        match env.repoCreate with
        | some m => { result := .error ("failed to save employee: " ++ m), warnings := [] }
        | none =>
          let auditBuilt := createAuditLogForCreation emp userId ipAddress userAgent freshAuditId now
          let w0 := match auditBuilt with
                    | none => ["Warning: failed to create audit log"]
                    | some _ => []
          { result := .ok emp,
            warnings := w0 ++ warnOf "create audit log" env.auditCreate ++
              warnOf "save event" env.eventSave ++
              warnOf "dispatch event" env.dispatchFailure ++
              warnOf "save audit event" env.auditEventSave }

/-! ## Partial updates (UpdateEmployee) -/

/-- A value in the untyped updates map of UpdateEmployee.  Go switches on
the dynamic type: a string, a float64, or (for the address key) a nested
map whose five address fields are read as strings with empty-string
defaults; the nested map is modelled by those five extracted strings. -/
inductive UpdVal where
  | us (v : String)
  | uf (v : Rat)
  | umap (street city state postalCode country : String)
deriving Repr, DecidableEq

/-- Hexadecimal digit test. -/
def isHexDigit (c : Char) : Bool :=
  c.isDigit || (c ≥ 'a' && c ≤ 'f') || (c ≥ 'A' && c ≤ 'F')

/-- Canonical UUID text: 8-4-4-4-12 hex groups separated by hyphens. -/
def isCanonicalUuid (s : String) : Bool :=
  match splitOnChar '-' s.toList with
  | [a, b, c, d, e] =>
    a.length = 8 && b.length = 4 && c.length = 4 && d.length = 4 &&
    e.length = 12 &&
    (a ++ b ++ c ++ d ++ e).all isHexDigit
  | _ => false

/-- An injective numeric reading of a string, standing for the uuid bytes. -/
def strToNat (s : String) : Nat :=
  s.toList.foldl (fun acc c => acc * 1114112 + c.toNat + 1) 1

/-- uuid.Parse, modelled on the canonical textual form. -/
def parseUUID (s : String) : Except String UUID :=
  if isCanonicalUuid s then .ok (strToNat s) else .error "invalid UUID format"

/-- One iteration of the update loop of applyEmployeeUpdates: recognized
keys with a value of the right dynamic type update the field and record
the field name; type mismatches and unknown keys are silently skipped;
managerId and address values are parsed and can fail the whole update. -/
def applyOneUpdate (acc : Employee × List String) (p : String × UpdVal) :
    Except String (Employee × List String) :=
  let e := acc.1
  let changed := acc.2
  match p.1, p.2 with
  | "firstName", .us v => .ok ({ e with firstName := v }, changed ++ ["firstName"])
  | "lastName", .us v => .ok ({ e with lastName := v }, changed ++ ["lastName"])
  | "email", .us v => .ok ({ e with email := v }, changed ++ ["email"])
  | "phone", .us v => .ok ({ e with phone := v }, changed ++ ["phone"])
  | "department", .us v => .ok ({ e with department := v }, changed ++ ["department"])
  | "position", .us v => .ok ({ e with position := v }, changed ++ ["position"])
  | "salary", .uf v => .ok ({ e with salary := v }, changed ++ ["salary"])
  | "managerId", .us v =>
    if v = "" then .ok ({ e with managerId := none }, changed ++ ["managerId"])
    else
      (match parseUUID v with
       | .error m => .error ("invalid manager ID: " ++ m)
       | .ok u => .ok ({ e with managerId := some u }, changed ++ ["managerId"]))
  | "address", .umap street city state postalCode country =>
    (match newAddress street city state postalCode country with
     | .error m => .error ("invalid address: " ++ m)
     | .ok a => .ok ({ e with address := some a }, changed ++ ["address"]))
  | _, _ => .ok (e, changed)

/-- applyEmployeeUpdates from employee.go: fold the updates map over the
employee, then bump UpdatedAt.  Note: no field validator is run here. -/
def applyEmployeeUpdates (e : Employee) (updates : List (String × UpdVal))
    (now : Int) : Except String (Employee × List String) :=
  match updates.foldlM applyOneUpdate (e, []) with
  | .error m => .error m
  | .ok (e2, changed) => .ok ({ e2 with updatedAt := now }, changed)

/-- Collaborator outcomes for UpdateEmployee. -/
structure UpdateEnv where
  getById : Except String (Option Employee)
  emailExists : Except String Bool
  getByIdForEmail : Except String (Option Employee)
  managerExists : Except String Bool
  repoUpdate : Option String
  auditCreate : Option String
  eventSave : Option String
  dispatchFailure : Option String

/-- validateEmployeeUpdate from employee.go: email uniqueness excluding the
employee's own stored record, and manager existence when a manager is set. -/
def validateEmployeeUpdate (env : UpdateEnv) (e : Employee) : Except String Unit :=
  match env.emailExists with
  | .error m => .error ("failed to check email uniqueness: " ++ m)
  | .ok exists_ =>
    let emailCheck : Except String Unit :=
      if exists_ then
        match env.getByIdForEmail with
        | .error m => .error ("failed to get existing employee: " ++ m)
        | .ok none => .error "email already exists"
        | .ok (some existing) =>
          if existing.email ≠ e.email then .error "email already exists" else .ok ()
      else .ok ()
    match emailCheck with
    | .error m => .error m
    | .ok _ =>
      match e.managerId with
      | none => .ok ()
      | some _ =>
        match env.managerExists with
        | .error m => .error ("failed to check manager existence: " ++ m)
        | .ok true => .ok ()
        | .ok false => .error "manager not found"

/-- EmployeeService.UpdateEmployee from employee.go: load, snapshot, apply
the field map (no field re-validation), business-rule validation, persist;
audit and event failures are warned and swallowed. -/
def updateEmployee (env : UpdateEnv) (updates : List (String × UpdVal))
    (userId ipAddress userAgent : String) (now : Int) (freshAuditId : UUID) :
    CreateOutcome :=
  match env.getById with
  | .error m => { result := .error ("failed to get employee: " ++ m), warnings := [] }
  | .ok none => { result := .error "employee not found", warnings := [] }
  | .ok (some emp) =>
    let oldValues := createEmployeeSnapshot emp
    match applyEmployeeUpdates emp updates now with
    | .error m => { result := .error m, warnings := [] }
    | .ok (emp2, _changedFields) =>
      match validateEmployeeUpdate env emp2 with
      | .error m => { result := .error m, warnings := [] }
      | .ok _ =>
        match env.repoUpdate with
        | some m => { result := .error ("failed to update employee: " ++ m), warnings := [] }
        | none =>
          let newValues := createEmployeeSnapshot emp2
          let auditBuilt :=
            match newAuditLog freshAuditId now emp2.id OperationUpdateEmployee
                userId oldValues newValues ipAddress userAgent with
            | .ok a => some a
            | .error _ => none
          let w0 := match auditBuilt with
                    | none => ["Warning: failed to create audit log"]
                    | some _ => []
          { result := .ok emp2,
            warnings := w0 ++ warnOf "create audit log" env.auditCreate ++
              warnOf "save event" env.eventSave ++
              warnOf "dispatch event" env.dispatchFailure }

/-! ## ChangeEmployeeStatus and UpdateEmployeeSalary -/

/-- Collaborator outcomes for ChangeEmployeeStatus / UpdateEmployeeSalary. -/
structure MutEnv where
  getById : Except String (Option Employee)
  repoUpdate : Option String
  auditCreate : Option String
  eventSave : Option String
  dispatchFailure : Option String

/-- Outcome of ChangeEmployeeStatus, also exposing the audit log it built
and the event it emitted (in Go these flow to the injected audit
repository, event store and dispatcher). -/
structure StatusOutcome where
  result : Except String Employee
  auditBuilt : Option AuditLog
  eventBuilt : Option StatusChangedEvent
  warnings : List String
deriving Repr

/-- EmployeeService.ChangeEmployeeStatus from employee.go.  Note the order
in the source: the aggregate is mutated by ChangeStatus BEFORE the audit
log and the event are built, and both are built from the mutated value's
Status field. -/
def changeEmployeeStatus (env : MutEnv) (newStatus : EmployeeStatus)
    (userId ipAddress userAgent : String) (now : Int)
    (freshAuditId freshEventId : UUID) : StatusOutcome :=
  match env.getById with
  | .error m =>
    { result := .error ("failed to get employee: " ++ m),
      auditBuilt := none, eventBuilt := none, warnings := [] }
  | .ok none =>
    { result := .error "employee not found",
      auditBuilt := none, eventBuilt := none, warnings := [] }
  | .ok (some emp) =>
    match emp.changeStatus newStatus now with
    | .error m =>
      { result := .error m, auditBuilt := none, eventBuilt := none, warnings := [] }
    | .ok emp2 =>
      match env.repoUpdate with
      | some m =>
        { result := .error ("failed to update employee: " ++ m),
          auditBuilt := none, eventBuilt := none, warnings := [] }
      | none =>
        let auditBuilt :=
          createAuditLogForStatusChange emp2 newStatus userId ipAddress
            userAgent freshAuditId now
        let w0 := match auditBuilt with
                  | none => ["Warning: failed to create audit log"]
                  | some _ => []
        let ev := newEmployeeStatusChangedEvent freshEventId now emp2.id
          emp2.status newStatus userId
        { result := .ok emp2, auditBuilt := auditBuilt, eventBuilt := some ev,
          warnings := w0 ++ warnOf "create audit log" env.auditCreate ++
            warnOf "save event" env.eventSave ++
            warnOf "dispatch event" env.dispatchFailure }

/-- Outcome of UpdateEmployeeSalary, likewise exposing the built audit log
and event. -/
structure SalaryOutcome where
  result : Except String Employee
  auditBuilt : Option AuditLog
  eventBuilt : Option SalaryChangedEvent
  warnings : List String
deriving Repr

/-- EmployeeService.UpdateEmployeeSalary from employee.go: the old salary
is captured before the aggregate mutation, and the event is built from
that captured value. -/
def updateEmployeeSalary (env : MutEnv) (newSalary : Rat)
    (userId ipAddress userAgent : String) (now : Int)
    (freshAuditId freshEventId : UUID) : SalaryOutcome :=
  match env.getById with
  | .error m =>
    { result := .error ("failed to get employee: " ++ m),
      auditBuilt := none, eventBuilt := none, warnings := [] }
  | .ok none =>
    { result := .error "employee not found",
      auditBuilt := none, eventBuilt := none, warnings := [] }
  | .ok (some emp) =>
    let oldSalary := emp.salary
    match emp.updateSalary newSalary now with
    | .error m =>
      { result := .error m, auditBuilt := none, eventBuilt := none, warnings := [] }
    | .ok emp2 =>
      match env.repoUpdate with
      | some m =>
        { result := .error ("failed to update employee: " ++ m),
          auditBuilt := none, eventBuilt := none, warnings := [] }
      | none =>
        let auditBuilt :=
          createAuditLogForSalaryChange emp2 oldSalary newSalary userId
            ipAddress userAgent freshAuditId now
        let w0 := match auditBuilt with
                  | none => ["Warning: failed to create audit log"]
                  | some _ => []
        let ev := newEmployeeSalaryChangedEvent freshEventId now emp2.id
          oldSalary newSalary userId
        { result := .ok emp2, auditBuilt := auditBuilt, eventBuilt := some ev,
          warnings := w0 ++ warnOf "create audit log" env.auditCreate ++
            warnOf "save event" env.eventSave ++
            warnOf "dispatch event" env.dispatchFailure }

/-! ## Concrete fixtures used by witnesses and counterexamples -/

/-- A reference instant for the concrete scenarios. -/
def sampleNow : Int := 1000000000

/-- A concrete valid employee (hired before sampleNow, active). -/
def sampleEmployee : Employee :=
  { id := 1, firstName := "John", lastName := "Doe",
    email := "john.doe@example.com", phone := "", department := "Engineering",
    position := "Engineer", hireDate := 999999000, salary := 50000,
    status := EmployeeStatusActive, managerId := none, address := none,
    createdAt := 999999000, updatedAt := 999999000 }

/-- The same employee, terminated. -/
def sampleTerminated : Employee :=
  { sampleEmployee with id := 2, status := EmployeeStatusTerminated }

/-- The employee created by the concrete CreateEmployee scenario. -/
def sampleCreated : Employee :=
  { sampleEmployee with createdAt := sampleNow, updatedAt := sampleNow }

/-- A create environment in which every advisory collaborator fails. -/
def sampleCreateEnvFailingSides : CreateEnv :=
  { emailExists := .ok false, managerExists := .ok false, repoCreate := none,
    auditCreate := some "audit db down", eventSave := some "event store down",
    dispatchFailure := some "handler exploded",
    auditEventSave := some "event store down" }

/-- An update environment whose repository calls all succeed. -/
def sampleUpdateEnv : UpdateEnv :=
  { getById := .ok (some sampleEmployee), emailExists := .ok false,
    getByIdForEmail := .ok (some sampleEmployee), managerExists := .ok true,
    repoUpdate := none, auditCreate := none, eventSave := none,
    dispatchFailure := none }

/-- A mutation environment (status / salary) whose repository calls
succeed. -/
def sampleMutEnv : MutEnv :=
  { getById := .ok (some sampleEmployee), repoUpdate := none,
    auditCreate := none, eventSave := none, dispatchFailure := none }

/-- The employee after the invalid partial update of the UpdateEmployee
scenario. -/
def sampleBadEmployee : Employee :=
  { sampleEmployee with salary := -1000, updatedAt := sampleNow }

/-- A deactivated user account. -/
def sampleInactiveUser : User :=
  { id := 3, username := "johndoe", email := "john@example.com",
    passwordHash := "hash", role := "VIEWER", isActive := false,
    lastLogin := none, createdAt := 1, updatedAt := 1 }

/-- A valid audit log describing an update. -/
def sampleAudit : AuditLog :=
  { id := 5, employeeId := 1, operation := OperationUpdateEmployee,
    userId := "admin", timestamp := sampleNow,
    oldValues := [("salary", .vNum 50000)],
    newValues := [("salary", .vNum 60000)],
    ipAddress := "192.168.1.1", userAgent := "UA" }

/-- An audit log with a changed field, a removed field and an added field. -/
def sampleAuditDiff : AuditLog :=
  { id := 6, employeeId := 1, operation := OperationUpdateEmployee,
    userId := "admin", timestamp := sampleNow,
    oldValues := [("salary", .vNum 50000), ("phone", .vStr "555")],
    newValues := [("salary", .vNum 60000), ("position", .vStr "Lead")],
    ipAddress := "192.168.1.1", userAgent := "UA" }

/-- A handler that fails on employee.created events. -/
def sampleHandlerFailA : EventHandler :=
  { canHandle := fun t => t = "employee.created", handle := fun _ => some "boomA" }

/-- A handler that succeeds on everything. -/
def sampleHandlerOk : EventHandler :=
  { canHandle := fun _ => true, handle := fun _ => none }

/-- A second failing handler. -/
def sampleHandlerFailB : EventHandler :=
  { canHandle := fun _ => true, handle := fun _ => some "boomB" }

/-- A dispatcher with three handlers registered for employee.created. -/
def sampleDispatcher : Dispatcher :=
  [("employee.created", [sampleHandlerFailA, sampleHandlerOk, sampleHandlerFailB])]

/-- An employee.created event instance for the dispatcher scenario. -/
def sampleDEvent : DEvent := { eventType := "employee.created" }

/-- The salary-changed event of the concrete UpdateEmployeeSalary
scenario. -/
def sampleSalaryEvent : SalaryChangedEvent :=
  newEmployeeSalaryChangedEvent 8 sampleNow 1 50000 60000 "admin"

/-! ## Theorems -/

/-- Helper: validateSalary accepts exactly the salaries in (0, 1000000]. -/
theorem validateSalary_iff (s : Rat) :
    validateSalary s = .ok () ↔ 0 < s ∧ s ≤ 1000000 := by
  unfold validateSalary
  split_ifs with h1 h2 h3
  · simp only [reduceCtorEq, false_iff, not_and]
    intro hp
    exact absurd (lt_trans hp h1) (lt_irrefl 0)
  · subst h2
    simp
  · simp only [reduceCtorEq, false_iff, not_and]
    intro _
    exact fun hle => absurd (lt_of_le_of_lt hle h3) (lt_irrefl s)
  · simp only [true_iff]
    push_neg at h1 h3
    exact ⟨lt_of_le_of_ne h1 (fun h => h2 h.symm), h3⟩

/-- C6: validateSalary (hence Employee construction and UpdateSalary on a
non-terminated employee) rejects 0, every negative salary and everything
above 1,000,000, and accepts exactly the salaries s with 0 < s ≤ 1,000,000
(1,000,000 itself included, 1,000,001 excluded). -/
theorem salary_validator_range (s : Rat) :
    (validateSalary s = .ok () ↔ 0 < s ∧ s ≤ 1000000) ∧
    (∀ (e : Employee) (now : Int), e.status ≠ EmployeeStatusTerminated →
      (e.updateSalary s now = .ok { e with salary := s, updatedAt := now } ↔
        0 < s ∧ s ≤ 1000000)) := by
  refine ⟨validateSalary_iff s, ?_⟩
  intro e now hne
  unfold Employee.updateSalary
  rcases hv : validateSalary s with m | u
  · simp only [reduceCtorEq, false_iff, not_and]
    intro hp hle
    rw [(validateSalary_iff s).mpr ⟨hp, hle⟩] at hv
    cases hv
  · have hterm : e.isTerminated = false := by
      simp [Employee.isTerminated, hne]
    simp only [hterm, Bool.false_eq_true, if_false, true_iff]
    have := (validateSalary_iff s).mp (by rw [hv])
    exact this

/-- Witness for salary_validator_range at the boundary salary 1,000,000 on
a concrete non-terminated employee. -/
theorem salary_validator_range_witness :
    sampleEmployee.status ≠ EmployeeStatusTerminated ∧
    sampleEmployee.updateSalary 1000000 sampleNow =
      .ok { sampleEmployee with salary := 1000000, updatedAt := sampleNow } := by
  refine ⟨by decide, ?_⟩
  exact ((salary_validator_range 1000000).2 sampleEmployee sampleNow (by decide)).mpr
    ⟨by norm_num, by norm_num⟩

/-- C2: a TERMINATED employee can neither change status nor have salary or
position updated, for any input; an ACTIVE or ON_LEAVE employee can change
status to every valid member of the status enum, self-transitions
included. -/
theorem terminated_terminal_active_permissive (e : Employee) (now : Int) :
    (e.status = EmployeeStatusTerminated →
      (∀ t, ∃ m, e.changeStatus t now = .error m) ∧
      (∀ s, ∃ m, e.updateSalary s now = .error m) ∧
      (∀ p d, ∃ m, e.updatePosition p d now = .error m)) ∧
    ((e.status = EmployeeStatusActive ∨ e.status = EmployeeStatusOnLeave) →
      ∀ t, statusIsValid t = true →
        e.changeStatus t now = .ok { e with status := t, updatedAt := now }) := by
  constructor
  · intro hterm
    refine ⟨?_, ?_, ?_⟩
    · intro t
      refine ⟨"invalid status transition from " ++ e.status ++ " to " ++ t, ?_⟩
      simp [Employee.changeStatus, validateTransition, canChangeTo, hterm]
    · intro s
      rcases hv : validateSalary s with m | u
      · exact ⟨m, by simp [Employee.updateSalary, hv]⟩
      · refine ⟨"cannot update salary for terminated employees", ?_⟩
        simp [Employee.updateSalary, hv, Employee.isTerminated, hterm]
    · intro p d
      rcases hp : validatePosition p with m | u
      · exact ⟨m, by simp [Employee.updatePosition, hp]⟩
      · rcases hd : validateDepartment d with m | u2
        · exact ⟨m, by simp [Employee.updatePosition, hp, hd]⟩
        · refine ⟨"cannot update position for terminated employees", ?_⟩
          simp [Employee.updatePosition, hp, hd, Employee.isTerminated, hterm]
  · intro hlive t hvalid
    have hne : ¬ (e.status = EmployeeStatusTerminated) := by
      rcases hlive with h | h <;> rw [h] <;> decide
    simp [Employee.changeStatus, validateTransition, canChangeTo, hne, hvalid]

/-- Witness for terminated_terminal_active_permissive: the concrete
terminated employee rejects a salary update, and the concrete active
employee transitions to ON_LEAVE. -/
theorem terminated_terminal_active_permissive_witness :
    (∃ m, sampleTerminated.updateSalary 60000 sampleNow = .error m) ∧
    sampleEmployee.changeStatus EmployeeStatusOnLeave sampleNow =
      .ok { sampleEmployee with status := EmployeeStatusOnLeave, updatedAt := sampleNow } := by
  constructor
  · exact ((terminated_terminal_active_permissive sampleTerminated sampleNow).1 rfl).2.1 60000
  · exact (terminated_terminal_active_permissive sampleEmployee sampleNow).2
      (Or.inl rfl) EmployeeStatusOnLeave rfl

/-- C1: whenever CreateEmployee gets past persisting the employee (the
uniqueness check says free, the manager check passes or no manager is
given, construction validates, and the repository create succeeds), the
call returns the created employee without error, for every outcome of the
audit-log write, the event-store writes and the event dispatch — those
fields of the environment are unconstrained here. -/
theorem createEmployee_advisory_failures_nonfatal
    (env : CreateEnv) (freshId freshAuditId : UUID) (now : Int)
    (firstName lastName email phone department position : String)
    (hireDate : Int) (salary : Rat) (managerId : Option UUID)
    (address : Option Address) (userId ipAddress userAgent : String)
    (emp : Employee)
    (hemail : env.emailExists = .ok false)
    (hmanager : managerId = none ∨ env.managerExists = .ok true)
    (hnew : newEmployee freshId now firstName lastName email phone department
      position hireDate salary managerId address = .ok emp)
    (hrepo : env.repoCreate = none) :
    (createEmployee env freshId freshAuditId now firstName lastName email
      phone department position hireDate salary managerId address userId
      ipAddress userAgent).result = .ok emp := by
  unfold createEmployee
  rw [hemail]
  rcases hmanager with rfl | hm
  · simp [hnew, hrepo]
  · rcases managerId with _ | m
    · simp [hnew, hrepo]
    · rw [hm]
      simp [hnew, hrepo]

/-- Witness: the concrete creation succeeds and returns the employee even
though the audit-log write, the event-store writes and the dispatch all
fail in the environment. -/
theorem createEmployee_advisory_failures_nonfatal_witness :
    (createEmployee sampleCreateEnvFailingSides 1 6 sampleNow "John" "Doe"
      "john.doe@example.com" "" "Engineering" "Engineer" 999999000 50000
      none none "admin" "192.168.1.1" "UA").result = .ok sampleCreated ∧
    sampleCreateEnvFailingSides.auditCreate = some "audit db down" := by
  refine ⟨?_, rfl⟩
  exact createEmployee_advisory_failures_nonfatal sampleCreateEnvFailingSides
    1 6 sampleNow "John" "Doe" "john.doe@example.com" "" "Engineering"
    "Engineer" 999999000 50000 none none "admin" "192.168.1.1" "UA"
    sampleCreated rfl (Or.inl rfl) rfl rfl

/-- C3 (divergence witness): ChangeEmployeeStatus on an ACTIVE employee
moving to ON_LEAVE succeeds, but because the source mutates the aggregate
before building the audit log and the event, the audit log's OldValues
status and the event's OldStatus both carry ON_LEAVE — the new status —
instead of the pre-call status ACTIVE. -/
theorem changeEmployeeStatus_records_new_status_as_old :
    sampleEmployee.status = EmployeeStatusActive ∧
    (changeEmployeeStatus sampleMutEnv EmployeeStatusOnLeave "admin"
      "192.168.1.1" "UA" sampleNow 7 8).result =
      .ok { sampleEmployee with status := EmployeeStatusOnLeave, updatedAt := sampleNow } ∧
    ((changeEmployeeStatus sampleMutEnv EmployeeStatusOnLeave "admin"
      "192.168.1.1" "UA" sampleNow 7 8).auditBuilt).map AuditLog.oldValues =
      some [("status", GoValue.vStr EmployeeStatusOnLeave)] ∧
    ((changeEmployeeStatus sampleMutEnv EmployeeStatusOnLeave "admin"
      "192.168.1.1" "UA" sampleNow 7 8).eventBuilt).map
        StatusChangedEvent.oldStatus = some EmployeeStatusOnLeave ∧
    EmployeeStatusOnLeave ≠ EmployeeStatusActive :=
  ⟨rfl, rfl, rfl, rfl, by decide⟩

/-- C4 (counterexample): for a user that exists but is deactivated, and a
password that does not match the stored hash, AuthenticateUser returns
UserNotActive, not the unified InvalidCredentials error the claim requires
for every password mismatch: the active check runs before the password
check. -/
theorem authenticateUser_inactive_mismatch_not_invalid_credentials :
    (fun _ _ => false : String → String → Bool) "guess"
      sampleInactiveUser.passwordHash = false ∧
    authenticateUser (fun _ _ => false) (.ok (some sampleInactiveUser))
      "guess" sampleNow = .error AuthError.userNotActive ∧
    AuthError.userNotActive ≠ AuthError.invalidCredentials :=
  ⟨rfl, rfl, by decide⟩

/-- C4 (amended): with the repository lookup succeeding, AuthenticateUser
fails with UserNotActive exactly when the account exists and is
deactivated (regardless of the password), and fails with the unified
InvalidCredentials error exactly when no user exists or an ACTIVE user
exists whose password does not match the stored hash. -/
theorem authenticateUser_error_classification
    (check : String → String → Bool) (found : Option User)
    (password : String) (now : Int) :
    (authenticateUser check (.ok found) password now =
        .error AuthError.userNotActive ↔
      ∃ u, found = some u ∧ u.isActive = false) ∧
    (authenticateUser check (.ok found) password now =
        .error AuthError.invalidCredentials ↔
      (found = none ∨
        ∃ u, found = some u ∧ u.isActive = true ∧
          check password u.passwordHash = false)) := by
  rcases found with _ | u
  · simp [authenticateUser]
  · by_cases ha : u.isActive
    · by_cases hc : check password u.passwordHash
      · simp [authenticateUser, userAuthenticate, ha, hc]
      · simp [authenticateUser, userAuthenticate, ha, hc]
    · simp [authenticateUser, ha]

/-- Witness for authenticateUser_error_classification: an absent user
yields InvalidCredentials and the inactive account yields UserNotActive. -/
theorem authenticateUser_error_classification_witness :
    authenticateUser (fun _ _ => true) (.ok none) "pw" sampleNow =
      .error AuthError.invalidCredentials ∧
    authenticateUser (fun _ _ => true) (.ok (some sampleInactiveUser)) "pw"
      sampleNow = .error AuthError.userNotActive := by
  constructor
  · exact (authenticateUser_error_classification (fun _ _ => true) none "pw"
      sampleNow).2.mpr (Or.inl rfl)
  · exact (authenticateUser_error_classification (fun _ _ => true)
      (some sampleInactiveUser) "pw" sampleNow).1.mpr
      ⟨sampleInactiveUser, rfl, rfl⟩

/-- C5 (divergence witness): the concrete employee passes Validate, yet
the service-level partial update with the field map containing salary
-1000 runs no field validator: applyEmployeeUpdates accepts it,
UpdateEmployee completes successfully (all repository calls succeeding)
and returns an employee on which Validate now fails — the claimed
invariant does not survive the field-map update path. -/
theorem updateEmployee_field_map_bypasses_validators :
    employeeValidate sampleNow sampleEmployee = .ok () ∧
    applyEmployeeUpdates sampleEmployee [("salary", UpdVal.uf (-1000))]
      sampleNow = .ok (sampleBadEmployee, ["salary"]) ∧
    (updateEmployee sampleUpdateEnv [("salary", UpdVal.uf (-1000))] "admin"
      "192.168.1.1" "UA" sampleNow 7).result = .ok sampleBadEmployee ∧
    employeeValidate sampleNow sampleBadEmployee =
      .error "salary cannot be negative" ∧
    validateSalary sampleBadEmployee.salary = .error "salary cannot be negative" :=
  ⟨rfl, rfl, rfl, rfl, rfl⟩

/-- Helper: an audit log that passes validation does not have both value
maps empty. -/
theorem auditValidate_ok_not_both_empty (a : AuditLog)
    (h : auditValidate a = .ok ()) :
    ¬ (a.oldValues.length = 0 ∧ a.newValues.length = 0) := by
  rintro ⟨h1, h2⟩
  unfold auditValidate at h
  split_ifs at h
  all_goals repeat (first | (cases h) | (split at h))
  all_goals simp_all

/-- C7: on every audit log that passes construction-time validation,
IsCreation, IsDeletion and IsUpdate are characterized by the emptiness of
the two value maps, and exactly one of the three holds. -/
theorem auditLog_classification (a : AuditLog)
    (h : auditValidate a = .ok ()) :
    ((a.isCreation = true ↔ a.oldValues.length = 0 ∧ 0 < a.newValues.length) ∧
     (a.isDeletion = true ↔ a.newValues.length = 0 ∧ 0 < a.oldValues.length) ∧
     (a.isUpdate = true ↔ 0 < a.oldValues.length ∧ 0 < a.newValues.length)) ∧
    ((a.isCreation = true ∧ a.isDeletion = false ∧ a.isUpdate = false) ∨
     (a.isCreation = false ∧ a.isDeletion = true ∧ a.isUpdate = false) ∨
     (a.isCreation = false ∧ a.isDeletion = false ∧ a.isUpdate = true)) := by
  have hne := auditValidate_ok_not_both_empty a h
  constructor
  · refine ⟨?_, ?_, ?_⟩ <;>
      simp [AuditLog.isCreation, AuditLog.isDeletion, AuditLog.isUpdate,
        Nat.pos_iff_ne_zero]
  · by_cases ho : a.oldValues.length = 0 <;> by_cases hn : a.newValues.length = 0
    · exact absurd ⟨ho, hn⟩ hne
    · exact Or.inl (by
        simp [AuditLog.isCreation, AuditLog.isDeletion, AuditLog.isUpdate,
          ho, hn, Nat.pos_iff_ne_zero])
    · exact Or.inr (Or.inl (by
        simp [AuditLog.isCreation, AuditLog.isDeletion, AuditLog.isUpdate,
          ho, hn, Nat.pos_iff_ne_zero]))
    · exact Or.inr (Or.inr (by
        simp [AuditLog.isCreation, AuditLog.isDeletion, AuditLog.isUpdate,
          ho, hn, Nat.pos_iff_ne_zero]))

/-- Witness for auditLog_classification on the concrete valid update log:
both maps nonempty makes it an update. -/
theorem auditLog_classification_witness :
    sampleAudit.isUpdate = true :=
  ((auditLog_classification sampleAudit rfl).1.2.2).mpr
    ⟨by decide, by decide⟩

/-- Helper: the error-collecting loop of Dispatch appends, in handler
order, exactly the error messages of the can-handling handlers that fail,
never dropping later handlers after an earlier failure. -/
theorem dispatch_foldl_collects (e : DEvent) (hs : List EventHandler)
    (acc : List String) :
    hs.foldl (fun acc h =>
      if h.canHandle e.eventType then
        match h.handle e with
        | some err => acc ++ ["handler failed for event " ++ e.eventType ++ ": " ++ err]
        | none => acc
      else acc) acc =
    acc ++ (hs.filter (fun h => h.canHandle e.eventType)).filterMap
      (fun h => (h.handle e).map
        (fun err => "handler failed for event " ++ e.eventType ++ ": " ++ err)) := by
  induction hs generalizing acc with
  | nil => simp
  | cons hd tl ih =>
    by_cases hc : hd.canHandle e.eventType
    · rcases hh : hd.handle e with _ | err
      · simp [List.foldl_cons, hc, hh, ih]
      · simp [List.foldl_cons, hc, hh, ih]
    · simp [List.foldl_cons, hc, ih]

/-- C8: Dispatch returns nil when no handler list is registered for the
event's type; otherwise it collects the failures of every registered
handler whose CanHandle accepts the type (not stopping at the first
failure), returns them aggregated when there is at least one, and returns
nil exactly when every invoked handler succeeded. -/
theorem dispatch_characterization (d : Dispatcher) (e : DEvent) :
    (lookupHandlers d e.eventType = none → dispatch d e = none) ∧
    (∀ hs, lookupHandlers d e.eventType = some hs →
      (dispatch d e =
        (if ((hs.filter (fun h => h.canHandle e.eventType)).filterMap
              (fun h => (h.handle e).map
                (fun err => "handler failed for event " ++ e.eventType ++ ": " ++ err))).isEmpty
          then none
          else some ((hs.filter (fun h => h.canHandle e.eventType)).filterMap
            (fun h => (h.handle e).map
              (fun err => "handler failed for event " ++ e.eventType ++ ": " ++ err))))) ∧
      (dispatch d e = none ↔
        ∀ h ∈ hs, h.canHandle e.eventType = true → h.handle e = none)) := by
  constructor
  · intro hnone
    unfold dispatch
    rw [hnone]
  · intro hs hsome
    have hfold := dispatch_foldl_collects e hs []
    have hd : dispatch d e =
        (if ((hs.filter (fun h => h.canHandle e.eventType)).filterMap
              (fun h => (h.handle e).map
                (fun err => "handler failed for event " ++ e.eventType ++ ": " ++ err))).isEmpty
          then none
          else some ((hs.filter (fun h => h.canHandle e.eventType)).filterMap
            (fun h => (h.handle e).map
              (fun err => "handler failed for event " ++ e.eventType ++ ": " ++ err)))) := by
      unfold dispatch
      rw [hsome]
      simp only [hfold, List.nil_append]
    refine ⟨hd, ?_⟩
    rw [hd]
    constructor
    · intro hcond
      by_cases hemp : ((hs.filter (fun h => h.canHandle e.eventType)).filterMap
          (fun h => (h.handle e).map
            (fun err => "handler failed for event " ++ e.eventType ++ ": " ++ err))).isEmpty
      · intro h hmem hch
        rw [List.isEmpty_iff, List.filterMap_eq_nil_iff] at hemp
        have := hemp h (List.mem_filter.mpr ⟨hmem, hch⟩)
        rcases hh : h.handle e with _ | err
        · rfl
        · rw [hh] at this
          cases this
      · rw [if_neg hemp] at hcond
        cases hcond
    · intro hall
      have hemp : ((hs.filter (fun h => h.canHandle e.eventType)).filterMap
          (fun h => (h.handle e).map
            (fun err => "handler failed for event " ++ e.eventType ++ ": " ++ err))) = [] := by
        rw [List.filterMap_eq_nil_iff]
        intro h hmem
        rcases List.mem_filter.mp hmem with ⟨hm, hch⟩
        rw [hall h hm hch]
        rfl
      rw [hemp]
      rfl

/-- Witness for dispatch_characterization: the concrete dispatcher invokes
all three registered handlers; the two failures are both collected and
aggregated. -/
theorem dispatch_characterization_witness :
    dispatch sampleDispatcher sampleDEvent =
      some ["handler failed for event employee.created: boomA",
            "handler failed for event employee.created: boomB"] := by
  have h := ((dispatch_characterization sampleDispatcher sampleDEvent).2
    [sampleHandlerFailA, sampleHandlerOk, sampleHandlerFailB] rfl).1
  rw [h]
  rfl

/-- C9: NewEmployeeSalaryChangedEvent stores
changePercent = ((new - old) / old) * 100 with no zero guard, and in the
UpdateEmployeeSalary flow the old salary is the loaded employee's salary;
whenever that employee satisfies the salary validator the divisor is
strictly positive, and the stored percentage genuinely satisfies the
defining ratio equation (the division is by a nonzero value). -/
theorem salaryChangedEvent_changePercent_well_defined
    (env : MutEnv) (emp : Employee) (newSalary : Rat)
    (userId ipAddress userAgent : String) (now : Int)
    (freshAuditId freshEventId : UUID)
    (hget : env.getById = .ok (some emp))
    (hval : validateSalary emp.salary = .ok ()) :
    ∀ ev, (updateEmployeeSalary env newSalary userId ipAddress userAgent now
        freshAuditId freshEventId).eventBuilt = some ev →
      ev.oldSalary = emp.salary ∧ 0 < ev.oldSalary ∧
      lookupVal ev.data "changePercent" =
        some (.vNum (((ev.newSalary - ev.oldSalary) / ev.oldSalary) * 100)) ∧
      (((ev.newSalary - ev.oldSalary) / ev.oldSalary) * 100) * ev.oldSalary =
        (ev.newSalary - ev.oldSalary) * 100 := by
  intro ev hev
  have hpos : 0 < emp.salary := ((validateSalary_iff emp.salary).mp hval).1
  simp only [updateEmployeeSalary, hget] at hev
  rcases hupd : emp.updateSalary newSalary now with m | emp2 <;>
    simp only [hupd] at hev
  · cases hev
  · rcases hrepo : env.repoUpdate with _ | m <;> rw [hrepo] at hev
    · simp only [Option.some.injEq] at hev
      subst hev
      refine ⟨rfl, hpos, rfl, ?_⟩
      have hne : (newEmployeeSalaryChangedEvent freshEventId now emp2.id
          emp.salary newSalary userId).oldSalary ≠ 0 := by
        simpa [newEmployeeSalaryChangedEvent] using ne_of_gt hpos
      field_simp
    · cases hev

/-- Witness for salaryChangedEvent_changePercent_well_defined on the
concrete 50000 to 60000 raise: the event is built, its divisor is the old
salary 50000 and is positive. -/
theorem salaryChangedEvent_changePercent_well_defined_witness :
    (updateEmployeeSalary sampleMutEnv 60000 "admin" "192.168.1.1" "UA"
      sampleNow 7 8).eventBuilt = some sampleSalaryEvent ∧
    sampleSalaryEvent.oldSalary = sampleEmployee.salary ∧
    0 < sampleSalaryEvent.oldSalary := by
  have h := salaryChangedEvent_changePercent_well_defined sampleMutEnv
    sampleEmployee 60000 "admin" "192.168.1.1" "UA" sampleNow 7 8 rfl rfl
    sampleSalaryEvent rfl
  exact ⟨rfl, h.1, h.2.1⟩

/-- Helper: a successful Go-map lookup is witnessed by an entry. -/
theorem lookupVal_isSome_iff (m : Snapshot) (k : String) :
    (lookupVal m k).isSome = true ↔ ∃ p ∈ m, p.1 = k := by
  induction m with
  | nil => simp [lookupVal]
  | cons q t ih =>
    by_cases hq : q.1 = k
    · simp [lookupVal, hq]
    · simp only [lookupVal, if_neg hq, ih, List.mem_cons]
      constructor
      · rintro ⟨p, hp, hk⟩
        exact ⟨p, Or.inr hp, hk⟩
      · rintro ⟨p, hp | hp, hk⟩
        · rw [hp] at hk
          exact absurd hk hq
        · exact ⟨p, hp, hk⟩

/-- Helper: a failed Go-map lookup means the key heads no entry. -/
theorem lookupVal_eq_none_iff (m : Snapshot) (k : String) :
    lookupVal m k = none ↔ ∀ p ∈ m, p.1 ≠ k := by
  induction m with
  | nil => simp [lookupVal]
  | cons q t ih =>
    by_cases hq : q.1 = k
    · simp [lookupVal, hq]
    · rw [lookupVal, if_neg hq, ih]
      constructor
      · intro h p hp
        rcases List.mem_cons.mp hp with rfl | hp2
        · exact hq
        · exact h p hp2
      · intro h p hp
        exact h p (List.mem_cons.mpr (Or.inr hp))

/-- Helper: in a Go map (distinct keys) the entry determines the lookup. -/
theorem lookupVal_of_mem (m : Snapshot) (k : String) (v : GoValue)
    (hnd : keysNodup m) (hmem : (k, v) ∈ m) :
    lookupVal m k = some v := by
  induction m with
  | nil => cases hmem
  | cons q t ih =>
    rcases List.mem_cons.mp hmem with rfl | hmem2
    · simp [lookupVal]
    · have hq : q.1 ≠ k := by
        intro hk
        have : k ∈ t.map Prod.fst := List.mem_map.mpr ⟨(k, v), hmem2, rfl⟩
        rw [keysNodup, List.map_cons, List.nodup_cons] at hnd
        rw [hk] at hnd
        exact hnd.1 this
      rw [lookupVal, if_neg hq]
      exact ih (List.nodup_cons.mp hnd).2 hmem2

/-- Helper: a successful lookup is produced by some entry of the list. -/
theorem mem_of_lookupVal_eq_some (m : Snapshot) (k : String) (v : GoValue)
    (h : lookupVal m k = some v) : (k, v) ∈ m := by
  induction m with
  | nil => cases h
  | cons q t ih =>
    by_cases hq : q.1 = k
    · rw [lookupVal, if_pos hq] at h
      injection h with hv
      have hqe : q = (k, v) := by
        obtain ⟨q1, q2⟩ := q
        simp only at hq hv
        rw [hq, hv]
      rw [hqe]
      exact List.mem_cons_self _ _
    · rw [lookupVal, if_neg hq] at h
      exact List.mem_cons.mpr (Or.inr (ih h))

/-- C10: a key is reported by GetChangedFields exactly when it is present
in both value maps with values that differ under valuesEqual, or present
in NewValues and absent from OldValues; in particular a key present only
in OldValues is never reported.  (Distinctness of the old-map keys is
intrinsic to the Go map being modelled.) -/
theorem getChangedFields_characterization (a : AuditLog) (k : String)
    (hold : keysNodup a.oldValues) :
    k ∈ a.getChangedFields ↔
      ((∃ ov nv, lookupVal a.oldValues k = some ov ∧
          lookupVal a.newValues k = some nv ∧ valuesEqual ov nv = false) ∨
       (lookupVal a.oldValues k = none ∧
          (lookupVal a.newValues k).isSome = true)) := by
  unfold AuditLog.getChangedFields
  rw [List.mem_append]
  constructor
  · rintro (h1 | h2)
    · left
      rcases List.mem_filterMap.mp h1 with ⟨p, hp, hf⟩
      rcases hl : lookupVal a.newValues p.1 with _ | nv
      · simp only [hl] at hf
        cases hf
      · simp only [hl] at hf
        by_cases hv : valuesEqual p.2 nv = true
        · rw [if_pos hv] at hf
          cases hf
        · rw [if_neg hv] at hf
          injection hf with hk
          subst hk
          refine ⟨p.2, nv, ?_, hl, by simpa using hv⟩
          exact lookupVal_of_mem a.oldValues p.1 p.2 hold hp
    · right
      rcases List.mem_filterMap.mp h2 with ⟨p, hp, hf⟩
      rcases hl : lookupVal a.oldValues p.1 with _ | ov
      · simp only [hl] at hf
        injection hf with hk
        subst hk
        refine ⟨hl, ?_⟩
        rw [lookupVal_isSome_iff]
        exact ⟨p, hp, rfl⟩
      · simp only [hl] at hf
        cases hf
  · rintro (⟨ov, nv, hlo, hln, hne⟩ | ⟨hnone, hsome⟩)
    · left
      refine List.mem_filterMap.mpr
        ⟨(k, ov), mem_of_lookupVal_eq_some a.oldValues k ov hlo, ?_⟩
      simp only [hln, hne, Bool.false_eq_true, if_false]
    · right
      rcases Option.isSome_iff_exists.mp hsome with ⟨nv, hnv⟩
      refine List.mem_filterMap.mpr
        ⟨(k, nv), mem_of_lookupVal_eq_some a.newValues k nv hnv, ?_⟩
      simp only [hnone]

/-- Witness for getChangedFields_characterization on the concrete audit
log: the added key position is reported, the removed key phone is not. -/
theorem getChangedFields_characterization_witness :
    "position" ∈ sampleAuditDiff.getChangedFields ∧
    "phone" ∉ sampleAuditDiff.getChangedFields := by
  constructor
  · exact (getChangedFields_characterization sampleAuditDiff "position"
      (by unfold keysNodup; decide)).mpr (Or.inr ⟨rfl, rfl⟩)
  · intro hmem
    have hn : lookupVal sampleAuditDiff.newValues "phone" = none := by decide
    rcases (getChangedFields_characterization sampleAuditDiff "phone"
        (by unfold keysNodup; decide)).mp hmem with ⟨ov, nv, _, hln, _⟩ | ⟨_, hsome⟩
    · rw [hn] at hln
      cases hln
    · rw [hn] at hsome
      cases hsome
